import Mathlib

/-!
Shallow embedding of the 1-wire manager (`src/source/1wire_mgr.c`,
`src/include/1wire_mgr.h`): a protocol state machine for DS18B20-class
temperature sensors.  Bus bytes, the reset/presence result and elapsed
ticks are inputs supplied per step by an environment record; the module's
static variables form an explicit engine-state record threaded through
the step function `wire_mgr_main`.
-/

set_option maxRecDepth 4000

namespace WireMgr

/-- Log/outcome codes, from the `LOG_*` macros. -/
def LOG_SUCCESS : Nat := 0

def LOG_CRC_ERROR : Nat := 1

def LOG_NO_PRESENCE_ERROR : Nat := 2

def LOG_FAKE_SENSOR_ERROR : Nat := 3

/-- Reserved value No1 for genuine DS1820 chips (`RESERVED1_VALUE`). -/
def RESERVED1_VALUE : Nat := 0xFF

/-- Reserved value No3 for genuine DS1820 chips (`RESERVED3_VALUE`). -/
def RESERVED3_VALUE : Nat := 0x10

/-- Family code for genuine DS1820 chips (`FAMILY_CODE`). -/
def FAMILY_CODE : Nat := 0x28

/-- Conversion times per resolution (`CONVERSION_TIME_*`). -/
def CONVERSION_TIME_9BIT : Nat := 94

def CONVERSION_TIME_10BIT : Nat := 188

def CONVERSION_TIME_11BIT : Nat := 375

def CONVERSION_TIME_12BIT : Nat := 750

/-- Resolution levels from the header (`WIRE_*BIT_RESOLUTION`). -/
def WIRE_9BIT_RESOLUTION : Nat := 0

def WIRE_10BIT_RESOLUTION : Nat := 1

def WIRE_11BIT_RESOLUTION : Nat := 2

def WIRE_12BIT_RESOLUTION : Nat := 3

/-- States of the 1-wire manager (`WIRE_state_t`). -/
inductive WIRE_state_t where
  | WIRE_READ_ROM
  | WIRE_READ_SCRATCHPAD
  | WIRE_WRITE_SCRATCHPAD
  | START_CONVERSION
  | WAIT_FOR_CONVERTION
  | READ_CONVERSION_RESULT
  | LOG_CONVERSION_RESULT
  | WIRE_ERROR_STATE
  | WIRE_SENTINEL_STATE
deriving DecidableEq, Repr

/-- Caller-supplied configuration (`WIRE_MGR_config_t`). -/
structure WIRE_MGR_config_t where
  is_crc : Bool
  is_fake_allowed : Bool
  resolution : Nat
deriving DecidableEq, Repr

/-- The Dallas/Maxim CRC-8 lookup table from `calc_crc`. -/
def crc8_table : List Nat := [
  0, 94, 188, 226, 97, 63, 221, 131, 194, 156, 126, 32, 163, 253, 31, 65,
  157, 195, 33, 127, 252, 162, 64, 30, 95, 1, 227, 189, 62, 96, 130, 220,
  35, 125, 159, 193, 66, 28, 254, 160, 225, 191, 93, 3, 128, 222, 60, 98,
  190, 224, 2, 92, 223, 129, 99, 61, 124, 34, 192, 158, 29, 67, 161, 255,
  70, 24, 250, 164, 39, 121, 155, 197, 132, 218, 56, 102, 229, 187, 89, 7,
  219, 133, 103, 57, 186, 228, 6, 88, 25, 71, 165, 251, 120, 38, 196, 154,
  101, 59, 217, 135, 4, 90, 184, 230, 167, 249, 27, 69, 198, 152, 122, 36,
  248, 166, 68, 26, 153, 199, 37, 123, 58, 100, 134, 216, 91, 5, 231, 185,
  140, 210, 48, 110, 237, 179, 81, 15, 78, 16, 242, 172, 47, 113, 147, 205,
  17, 79, 173, 243, 112, 46, 204, 146, 211, 141, 111, 49, 178, 236, 14, 80,
  175, 241, 19, 77, 206, 144, 114, 44, 109, 51, 209, 143, 12, 82, 176, 238,
  50, 108, 142, 208, 83, 13, 239, 177, 240, 174, 76, 18, 145, 207, 45, 115,
  202, 148, 118, 40, 171, 245, 23, 73, 8, 86, 180, 234, 105, 55, 213, 139,
  87, 9, 235, 181, 54, 104, 138, 212, 149, 203, 41, 119, 244, 170, 72, 22,
  233, 183, 85, 11, 136, 214, 52, 106, 43, 117, 151, 201, 74, 20, 246, 168,
  116, 42, 200, 150, 21, 75, 169, 247, 182, 232, 10, 84, 215, 137, 107, 53]

/-- One CRC-8 table step (`calc_crc`): `table[crc ^ data]`.  Both arguments
are bytes in the C code; the index is reduced mod 256 to keep the Lean
function total. -/
def calc_crc (crc data : Nat) : Nat :=
  crc8_table.getD ((crc ^^^ data) % 256) 0

/-- `SIZE_MAX` for the 64-bit `size_t` used to model the wrapping
decrement in `calc_crc_block`. -/
def size_t_max : Nat := 18446744073709551615

/-- The remaining iterations of the do-while loop in `calc_crc_block`
after the first body execution: while `len > 0`, fold in `buffer[i]`,
advance, decrement. -/
def crc_go (buffer : Nat → Nat) : Nat → Nat → Nat → Nat
  | ret, _, 0 => ret
  | ret, i, len + 1 => crc_go buffer (calc_crc ret (buffer i)) (i + 1) len

/-- `calc_crc_block`: a do-while loop whose body runs once before the
length test; the first decrement of the `size_t` length wraps to
`size_t_max` when `length = 0`. -/
def calc_crc_block (crc : Nat) (buffer : Nat → Nat) (length : Nat) : Nat :=
  crc_go buffer (calc_crc crc (buffer 0)) 1
    (if length = 0 then size_t_max else length - 1)

/-- `is_crc_valid`: compares the fold seeded with 0 against the expected
CRC byte. -/
def is_crc_valid (buffer : Nat → Nat) (size : Nat) (exp_crc : Nat) : Bool :=
  decide (calc_crc_block 0 buffer size = exp_crc)

/-- `is_reserved_values_valid`: both reserved bytes must equal their
manufacturer constants. -/
def is_reserved_values_valid (res1 res3 : Nat) : Bool :=
  decide (res1 = RESERVED1_VALUE ∧ res3 = RESERVED3_VALUE)

/-- `get_temperature`: `(int16_t)(((uint16_t)msb << CHAR_BIT) | lsb)`,
two's-complement reading of the 16-bit pattern. -/
def get_temperature (msb lsb : Nat) : Int :=
  let u : Nat := (((msb % 256) <<< 8) ||| (lsb % 256)) % 65536
  if u < 32768 then (u : Int) else (u : Int) - 65536

/-- `get_resolution_conv_time`: conversion-time budget per resolution
level; any other input trips `ASSERT(false)`, modelled as `none`. -/
def get_resolution_conv_time (resolution : Nat) : Option Nat :=
  if resolution = WIRE_9BIT_RESOLUTION then some CONVERSION_TIME_9BIT
  else if resolution = WIRE_10BIT_RESOLUTION then some CONVERSION_TIME_10BIT
  else if resolution = WIRE_11BIT_RESOLUTION then some CONVERSION_TIME_11BIT
  else if resolution = WIRE_12BIT_RESOLUTION then some CONVERSION_TIME_12BIT
  else none

/-- `get_resolution_mask`: configuration-register mask per resolution
level; any other input trips `ASSERT(false)`, modelled as `none`. -/
def get_resolution_mask (resolution : Nat) : Option Nat :=
  if resolution = WIRE_9BIT_RESOLUTION then some 0x1F
  else if resolution = WIRE_10BIT_RESOLUTION then some 0x3F
  else if resolution = WIRE_11BIT_RESOLUTION then some 0x5F
  else if resolution = WIRE_12BIT_RESOLUTION then some 0x7F
  else none

/-- Per-step environment: the bus and timer inputs the external
collaborators would deliver during one invocation of the task. -/
structure WIRE_env where
  reset_present : Bool
  rom_bytes : Nat → Nat
  sp_bytes : Nat → Nat
  tick : Nat
  elapsed : Nat

/-- The module's static variables (`state`, `old_state`,
`is_sensor_ready`, `result`, `wire_mgr_log`, `temperature`,
`conversion_time`, `start_conv_time`, `scratchpad`, `rom_code`). -/
structure WIRE_mgr_state where
  state : WIRE_state_t
  old_state : WIRE_state_t
  is_sensor_ready : Bool
  result : Nat
  log_success : Nat
  log_crc_error : Nat
  log_no_presence : Nat
  log_fake_sensor : Nat
  temperature : Int
  conversion_time : Nat
  start_conv_time : Nat
  scratchpad : List Nat
  rom_code : List Nat
deriving DecidableEq, Repr

/-- `read_bytes`: the bytes the bus delivers for a read of `size`
bytes. -/
def read_bytes (src : Nat → Nat) (size : Nat) : List Nat :=
  (List.range size).map src

/-- `handle_read_rom`: returns the next state together with the mutated
static variables. -/
def handle_read_rom (cfg : WIRE_MGR_config_t) (env : WIRE_env)
    (e : WIRE_mgr_state) : WIRE_state_t × WIRE_mgr_state :=
  let rom := read_bytes env.rom_bytes 8
  let e1 := { e with rom_code := rom }
  if cfg.is_crc &&
      !(is_crc_valid (fun i => rom.getD i 0) 7 (rom.getD 7 0)) then
    (.LOG_CONVERSION_RESULT, { e1 with result := LOG_CRC_ERROR })
  else if (rom.getD 0 0 ≠ FAMILY_CODE ∨ rom.getD 5 0 ≠ 0 ∨
      rom.getD 6 0 ≠ 0) ∧ cfg.is_fake_allowed = false then
    (.LOG_CONVERSION_RESULT, { e1 with result := LOG_FAKE_SENSOR_ERROR })
  else
    (.WIRE_READ_SCRATCHPAD, e1)

/-- `handle_read_scratchpad`. -/
def handle_read_scratchpad (cfg : WIRE_MGR_config_t) (env : WIRE_env)
    (e : WIRE_mgr_state) : WIRE_state_t × WIRE_mgr_state :=
  let sp := read_bytes env.sp_bytes 9
  let e1 := { e with scratchpad := sp }
  if cfg.is_crc &&
      !(is_crc_valid (fun i => sp.getD i 0) 8 (sp.getD 8 0)) then
    (.LOG_CONVERSION_RESULT, { e1 with result := LOG_CRC_ERROR })
  else if is_reserved_values_valid (sp.getD 5 0) (sp.getD 7 0) = false ∧
      cfg.is_fake_allowed = false then
    (.LOG_CONVERSION_RESULT, { e1 with result := LOG_FAKE_SENSOR_ERROR })
  else
    (.WIRE_WRITE_SCRATCHPAD,
      { e1 with temperature := get_temperature (sp.getD 1 0) (sp.getD 0 0) })

/-- `handle_write_scratchpad`: pure bus writes, no static-variable
mutation. -/
def handle_write_scratchpad (_cfg : WIRE_MGR_config_t) (_env : WIRE_env)
    (e : WIRE_mgr_state) : WIRE_state_t × WIRE_mgr_state :=
  (.START_CONVERSION, e)

/-- `handle_start_conversion`: records the start tick (a `uint32_t`). -/
def handle_start_conversion (_cfg : WIRE_MGR_config_t) (env : WIRE_env)
    (e : WIRE_mgr_state) : WIRE_state_t × WIRE_mgr_state :=
  (.WAIT_FOR_CONVERTION, { e with start_conv_time := env.tick % 4294967296 })

/-- `handle_wait_for_conversion`: the elapsed-tick comparison; the tick
difference is computed by an external collaborator and supplied as
`env.elapsed`. -/
def handle_wait_for_conversion (_cfg : WIRE_MGR_config_t) (env : WIRE_env)
    (e : WIRE_mgr_state) : WIRE_state_t × WIRE_mgr_state :=
  if env.elapsed > e.conversion_time then
    (.READ_CONVERSION_RESULT, e)
  else
    (.WAIT_FOR_CONVERTION, e)

/-- `handle_read_conversion_results`. -/
def handle_read_conversion_results (cfg : WIRE_MGR_config_t) (env : WIRE_env)
    (e : WIRE_mgr_state) : WIRE_state_t × WIRE_mgr_state :=
  let sp := read_bytes env.sp_bytes 9
  let e1 := { e with scratchpad := sp }
  if cfg.is_crc &&
      !(is_crc_valid (fun i => sp.getD i 0) 8 (sp.getD 8 0)) then
    (.LOG_CONVERSION_RESULT, { e1 with result := LOG_CRC_ERROR })
  else
    (.LOG_CONVERSION_RESULT,
      { e1 with
        temperature := get_temperature (sp.getD 1 0) (sp.getD 0 0)
        result := LOG_SUCCESS
        is_sensor_ready := true })

/-- `handle_log_conversion_results`: increments the `uint8_t` counter of
the recorded outcome (wrapping mod 256) and branches on `old_state`. -/
def handle_log_conversion_results (_cfg : WIRE_MGR_config_t) (_env : WIRE_env)
    (e : WIRE_mgr_state) : WIRE_state_t × WIRE_mgr_state :=
  let e1 :=
    if e.result = LOG_SUCCESS then
      { e with log_success := (e.log_success + 1) % 256 }
    else if e.result = LOG_CRC_ERROR then
      { e with log_crc_error := (e.log_crc_error + 1) % 256 }
    else if e.result = LOG_NO_PRESENCE_ERROR then
      { e with log_no_presence := (e.log_no_presence + 1) % 256 }
    else if e.result = LOG_FAKE_SENSOR_ERROR then
      { e with log_fake_sensor := (e.log_fake_sensor + 1) % 256 }
    else e
  let next :=
    match e.old_state with
    | .WIRE_SENTINEL_STATE | .WIRE_READ_ROM =>
      if e.result = LOG_FAKE_SENSOR_ERROR then .WIRE_ERROR_STATE
      else .WIRE_READ_ROM
    | _ => .START_CONVERSION
  (next, e1)

/-- `handle_error_state`: clears readiness and stays in the error
state. -/
def handle_error_state (_cfg : WIRE_MGR_config_t) (_env : WIRE_env)
    (e : WIRE_mgr_state) : WIRE_state_t × WIRE_mgr_state :=
  (.WIRE_ERROR_STATE, { e with is_sensor_ready := false })

/-- `handle_reset_needed_state`: presence handshake first; on failure the
transition is forced to the log state with the no-presence outcome. -/
def handle_reset_needed_state (cfg : WIRE_MGR_config_t) (env : WIRE_env)
    (e : WIRE_mgr_state) (s : WIRE_state_t) : WIRE_state_t × WIRE_mgr_state :=
  if env.reset_present then
    match s with
    | .WIRE_READ_ROM => handle_read_rom cfg env e
    | .WIRE_READ_SCRATCHPAD => handle_read_scratchpad cfg env e
    | .WIRE_WRITE_SCRATCHPAD => handle_write_scratchpad cfg env e
    | .START_CONVERSION => handle_start_conversion cfg env e
    | .READ_CONVERSION_RESULT => handle_read_conversion_results cfg env e
    | _ => (.WIRE_READ_ROM, e)
  else
    (.LOG_CONVERSION_RESULT, { e with result := LOG_NO_PRESENCE_ERROR })

/-- `wire_mgr_main`: one invocation of the periodic task.  Dispatches on
the current state, then stores the pre-step state into `old_state` and
the computed next state into `state`.  The unreachable default branch
(`ASSERT(false)`) leaves `new_state` at its sentinel initialization. -/
def wire_mgr_main (cfg : WIRE_MGR_config_t) (env : WIRE_env)
    (e : WIRE_mgr_state) : WIRE_mgr_state :=
  let r : WIRE_state_t × WIRE_mgr_state :=
    match e.state with
    | .WIRE_READ_ROM | .WIRE_READ_SCRATCHPAD | .WIRE_WRITE_SCRATCHPAD
    | .START_CONVERSION | .READ_CONVERSION_RESULT =>
      handle_reset_needed_state cfg env e e.state
    | .WAIT_FOR_CONVERTION => handle_wait_for_conversion cfg env e
    | .LOG_CONVERSION_RESULT => handle_log_conversion_results cfg env e
    | .WIRE_ERROR_STATE => handle_error_state cfg env e
    | .WIRE_SENTINEL_STATE => (.WIRE_SENTINEL_STATE, e)
  { r.2 with old_state := e.state, state := r.1 }

/-- `WIRE_MGR_get_temperature`: `some` of the published temperature when
the readiness flag is set, otherwise `none`. -/
def WIRE_MGR_get_temperature (e : WIRE_mgr_state) : Option Int :=
  if e.is_sensor_ready then some e.temperature else none

/-- The zero-initialized static state with a given conversion-time
budget: `state = WIRE_READ_ROM` (enum value 0),
`old_state = WIRE_SENTINEL_STATE`. -/
def initial_engine (ct : Nat) : WIRE_mgr_state :=
  { state := .WIRE_READ_ROM
    old_state := .WIRE_SENTINEL_STATE
    is_sensor_ready := false
    result := 0
    log_success := 0
    log_crc_error := 0
    log_no_presence := 0
    log_fake_sensor := 0
    temperature := 0
    conversion_time := ct
    start_conv_time := 0
    scratchpad := List.replicate 9 0
    rom_code := List.replicate 8 0 }

/-- `WIRE_MGR_initialize`: selects the conversion-time budget for the
configured resolution (fatal assert on an invalid level, modelled as
`none`). -/
def WIRE_MGR_initialize (cfg : WIRE_MGR_config_t) : Option WIRE_mgr_state :=
  (get_resolution_conv_time cfg.resolution).map initial_engine

/-- Iterated stepping of the task under a stream of environments. -/
def run (cfg : WIRE_MGR_config_t) (envs : Nat → WIRE_env)
    (e : WIRE_mgr_state) : Nat → WIRE_mgr_state
  | 0 => e
  | n + 1 => wire_mgr_main cfg (envs n) (run cfg envs e n)

/-! ## State-machine helper predicates and concrete fixtures -/

/-- The five states whose step begins with the bus presence handshake
(the first five cases of the dispatch in `wire_mgr_main`). -/
def needs_reset (s : WIRE_state_t) : Bool :=
  match s with
  | .WIRE_READ_ROM | .WIRE_READ_SCRATCHPAD | .WIRE_WRITE_SCRATCHPAD
  | .START_CONVERSION | .READ_CONVERSION_RESULT => true
  | _ => false

/-- Membership in the convert/collect/report loop proper. -/
def in_conv_loop (s : WIRE_state_t) : Bool :=
  match s with
  | .START_CONVERSION | .WAIT_FOR_CONVERTION | .READ_CONVERSION_RESULT => true
  | _ => false

/-- Steady-state invariant: in the conversion loop, or in the log state
having arrived there from a loop (non-acquisition) state. -/
def steady (e : WIRE_mgr_state) : Bool :=
  in_conv_loop e.state ||
    (decide (e.state = .LOG_CONVERSION_RESULT) &&
     !(decide (e.old_state = .WIRE_READ_ROM)) &&
     !(decide (e.old_state = .WIRE_SENTINEL_STATE)))

/-- The scratchpad CRC gate of `handle_read_scratchpad` /
`handle_read_conversion_results` passes (check disabled or valid). -/
def collect_ok (cfg : WIRE_MGR_config_t) (env : WIRE_env) : Bool :=
  let sp := read_bytes env.sp_bytes 9
  !(cfg.is_crc && !(is_crc_valid (fun i => sp.getD i 0) 8 (sp.getD 8 0)))

/-- A step that records the success outcome: the collect-result state
with presence detected and the CRC gate passing. -/
def success_step (cfg : WIRE_MGR_config_t) (env : WIRE_env)
    (e : WIRE_mgr_state) : Bool :=
  decide (e.state = .READ_CONVERSION_RESULT) && env.reset_present &&
    collect_ok cfg env

/-- The scratchpad-acquisition step reaches its temperature write: the
CRC gate passes and the reserved bytes are genuine or fakes are
tolerated. -/
def scratch_pass (cfg : WIRE_MGR_config_t) (env : WIRE_env) : Bool :=
  collect_ok cfg env &&
    (is_reserved_values_valid ((read_bytes env.sp_bytes 9).getD 5 0)
      ((read_bytes env.sp_bytes 9).getD 7 0) || cfg.is_fake_allowed)

/-- The steps that write the published temperature: a successful
collect-result step, or a scratchpad-acquisition step whose checks
pass. -/
def temp_write_step (cfg : WIRE_MGR_config_t) (env : WIRE_env)
    (e : WIRE_mgr_state) : Bool :=
  success_step cfg env e ||
    (decide (e.state = .WIRE_READ_SCRATCHPAD) && env.reset_present &&
      scratch_pass cfg env)

/-- CRC disabled, fakes rejected, 9-bit resolution. -/
def cfg0 : WIRE_MGR_config_t :=
  { is_crc := false, is_fake_allowed := false, resolution := 0 }

/-- CRC disabled, fakes tolerated, 9-bit resolution. -/
def cfg_fake_ok : WIRE_MGR_config_t :=
  { is_crc := false, is_fake_allowed := true, resolution := 0 }

/-- Environment whose presence handshake fails. -/
def env_fail : WIRE_env :=
  { reset_present := false, rom_bytes := fun _ => 0, sp_bytes := fun _ => 0,
    tick := 0, elapsed := 0 }

/-- Environment with presence, all-zero bus bytes, zero ticks. -/
def env_ok0 : WIRE_env :=
  { reset_present := true, rom_bytes := fun _ => 0, sp_bytes := fun _ => 0,
    tick := 0, elapsed := 0 }

/-- Environment delivering a genuine identification code (family 0x28,
high serial bytes zero) and a scratchpad whose reserved bytes are wrong
(all zero). -/
def env_genuine_rom_bad_sp : WIRE_env :=
  { reset_present := true, rom_bytes := fun i => if i = 0 then 40 else 0,
    sp_bytes := fun _ => 0, tick := 0, elapsed := 0 }

/-- Environment delivering a genuine identification code and a genuine
scratchpad carrying raw temperature 0x0550. -/
def env_genuine_sp : WIRE_env :=
  { reset_present := true, rom_bytes := fun i => if i = 0 then 40 else 0,
    sp_bytes := fun i => [80, 5, 0, 0, 0, 255, 0, 16, 0].getD i 0,
    tick := 0, elapsed := 0 }

/-- A copy of the freshly initialized engine placed in a chosen state
with a chosen previous state. -/
def eng_at (s old : WIRE_state_t) : WIRE_mgr_state :=
  { initial_engine 94 with state := s, old_state := old }

/-- Engine in the report state carrying the fake-sensor outcome arrived
from identification. -/
def eng_fake_from_rom : WIRE_mgr_state :=
  { initial_engine 94 with
      state := WIRE_state_t.LOG_CONVERSION_RESULT
      old_state := WIRE_state_t.WIRE_READ_ROM
      result := 3 }

/-- Engine in the report state carrying the success outcome with the
8-bit success counter saturated at 255. -/
def eng_log_sat : WIRE_mgr_state :=
  { initial_engine 94 with
      state := WIRE_state_t.LOG_CONVERSION_RESULT
      old_state := WIRE_state_t.READ_CONVERSION_RESULT
      result := 0
      log_success := 255 }


/-! ## CRC lemmas -/

theorem crc_go_eq_foldl (buf : Nat → Nat) :
    ∀ (len i r : Nat), crc_go buf r i len =
      List.foldl calc_crc r ((List.range' i len).map buf) := by
  intro len
  induction len with
  | zero => intro i r; simp [crc_go]
  | succ n ih =>
    intro i r
    rw [List.range'_succ]
    simp [crc_go, ih]

theorem calc_crc_block_foldl (c : Nat) (buf : Nat → Nat) (n : Nat)
    (h : 1 ≤ n) :
    calc_crc_block c buf n =
      List.foldl calc_crc c ((List.range' 0 n).map buf) := by
  obtain ⟨m, rfl⟩ : ∃ m, n = m + 1 := ⟨n - 1, by omega⟩
  unfold calc_crc_block
  rw [if_neg (by omega)]
  rw [crc_go_eq_foldl]
  rw [List.range'_succ]
  simp

theorem calc_crc_block_zero_reads (c : Nat) (buf : Nat → Nat) :
    calc_crc_block c buf 0 =
      List.foldl calc_crc c ((List.range' 0 (size_t_max + 1)).map buf) := by
  unfold calc_crc_block
  rw [if_pos rfl]
  rw [crc_go_eq_foldl]
  conv_rhs => rw [List.range'_succ]
  rw [List.map_cons, List.foldl_cons]

/-! ## Claims -/

/-- C7: `get_resolution_conv_time` maps the four resolution levels
9/10/11/12 bits to exactly 94, 188, 375, 750 time units, is strictly
increasing over the ordered levels, and any other input is a fatal
assertion (modelled as `none`), not a recoverable result. -/
theorem C7_conv_time_table :
    get_resolution_conv_time WIRE_9BIT_RESOLUTION = some 94 ∧
    get_resolution_conv_time WIRE_10BIT_RESOLUTION = some 188 ∧
    get_resolution_conv_time WIRE_11BIT_RESOLUTION = some 375 ∧
    get_resolution_conv_time WIRE_12BIT_RESOLUTION = some 750 ∧
    (∀ r1 r2 t1 t2, r1 < r2 →
      get_resolution_conv_time r1 = some t1 →
      get_resolution_conv_time r2 = some t2 → t1 < t2) ∧
    (∀ r, 3 < r → get_resolution_conv_time r = none) := by
  refine ⟨by decide, by decide, by decide, by decide, ?_, ?_⟩
  · intro r1 r2 t1 t2 h12 h1 h2
    have hb2 : r2 ≤ 3 := by
      by_contra hc
      push_neg at hc
      have e0 : ¬ r2 = 0 := by omega
      have e1 : ¬ r2 = 1 := by omega
      have e2 : ¬ r2 = 2 := by omega
      have e3 : ¬ r2 = 3 := by omega
      simp [get_resolution_conv_time, WIRE_9BIT_RESOLUTION,
        WIRE_10BIT_RESOLUTION, WIRE_11BIT_RESOLUTION, WIRE_12BIT_RESOLUTION,
        e0, e1, e2, e3] at h2
    have hb1 : r1 < 3 := by omega
    interval_cases r1 <;> interval_cases r2 <;>
      simp_all [get_resolution_conv_time, WIRE_9BIT_RESOLUTION,
        WIRE_10BIT_RESOLUTION, WIRE_11BIT_RESOLUTION, WIRE_12BIT_RESOLUTION,
        CONVERSION_TIME_9BIT, CONVERSION_TIME_10BIT, CONVERSION_TIME_11BIT,
        CONVERSION_TIME_12BIT] <;> omega
  · intro r hr
    have e0 : ¬ r = 0 := by omega
    have e1 : ¬ r = 1 := by omega
    have e2 : ¬ r = 2 := by omega
    have e3 : ¬ r = 3 := by omega
    simp [get_resolution_conv_time, WIRE_9BIT_RESOLUTION,
      WIRE_10BIT_RESOLUTION, WIRE_11BIT_RESOLUTION, WIRE_12BIT_RESOLUTION,
      e0, e1, e2, e3]

/-- Witness for C7: the ordered pair of levels 0 and 3 yields 94 < 750,
and level 4 is rejected. -/
theorem C7_conv_time_table_witness :
    (0 < 3 ∧ (94 : Nat) < 750) ∧ (3 < 4 ∧ get_resolution_conv_time 4 = none) :=
  ⟨⟨by decide,
    C7_conv_time_table.2.2.2.2.1 0 3 94 750 (by decide) (by decide) (by decide)⟩,
   by decide, C7_conv_time_table.2.2.2.2.2 4 (by decide)⟩

/-- C8: for every byte block and length `n ≥ 1`, `is_crc_valid` compares
the table-driven left fold seeded with 0 over `block[0..n)` against the
expected CRC byte; and folding any block extended by its own correct
trailing CRC byte yields 0. -/
theorem C8_crc_fold_properties :
    (∀ buf n exp, 1 ≤ n →
      (is_crc_valid buf n exp = true ↔
        List.foldl calc_crc 0 ((List.range' 0 n).map buf) = exp)) ∧
    (∀ (block : List Nat) (c : Nat),
      List.foldl calc_crc 0 block = c →
      List.foldl calc_crc 0 (block ++ [c]) = 0) := by
  constructor
  · intro buf n exp h
    unfold is_crc_valid
    rw [calc_crc_block_foldl 0 buf n h]
    simp
  · intro block c h
    rw [List.foldl_append, h]
    show calc_crc c c = 0
    unfold calc_crc
    rw [Nat.xor_self]
    rfl

/-- Witness for C8: the 8-byte all-zero scratchpad payload with expected
CRC 0 validates via the fold, and the block `[40]` with its correct
trailing CRC byte 225 folds to 0. -/
theorem C8_crc_fold_properties_witness :
    (1 ≤ 8 ∧ (is_crc_valid (fun _ => 0) 8 0 = true ↔
      List.foldl calc_crc 0 ((List.range' 0 8).map (fun _ => 0)) = 0)) ∧
    List.foldl calc_crc 0 ([40] ++ [225]) = 0 :=
  ⟨⟨by decide, C8_crc_fold_properties.1 (fun _ => 0) 8 0 (by decide)⟩,
   C8_crc_fold_properties.2 [40] 225 (by decide)⟩

/-- C10: `calc_crc_block` is an in-bounds left fold exactly under the
precondition `length ≥ 1`: for every `length ≥ 1` it terminates and
equals the left fold of the table step over the first `length` bytes;
for `length = 0` the wrapping decrement of the `size_t` length makes it
fold over `size_t_max + 1 = 2^64` indices, reading far past any block;
and the CRC checks at both call sites use lengths 7 (identification) and
8 (scratchpad), which satisfy the precondition and reduce to in-bounds
folds. -/
theorem C10_calc_crc_block_precondition :
    (∀ c buf n, 1 ≤ n →
      calc_crc_block c buf n =
        List.foldl calc_crc c ((List.range' 0 n).map buf)) ∧
    (∀ c buf, calc_crc_block c buf 0 =
      List.foldl calc_crc c ((List.range' 0 (size_t_max + 1)).map buf)) ∧
    (9 < size_t_max + 1) ∧
    (∀ buf exp, is_crc_valid buf 7 exp =
      decide (List.foldl calc_crc 0 ((List.range' 0 7).map buf) = exp)) ∧
    (∀ buf exp, is_crc_valid buf 8 exp =
      decide (List.foldl calc_crc 0 ((List.range' 0 8).map buf) = exp)) := by
  refine ⟨fun c buf n h => calc_crc_block_foldl c buf n h,
    fun c buf => calc_crc_block_zero_reads c buf, by norm_num [size_t_max],
    ?_, ?_⟩
  · intro buf exp
    unfold is_crc_valid
    rw [calc_crc_block_foldl 0 buf 7 (by omega)]
  · intro buf exp
    unfold is_crc_valid
    rw [calc_crc_block_foldl 0 buf 8 (by omega)]

/-- Witness for C10: the fold equality at length 7 on the all-zero
buffer. -/
theorem C10_calc_crc_block_precondition_witness :
    1 ≤ 7 ∧ calc_crc_block 0 (fun _ => 0) 7 =
      List.foldl calc_crc 0 ((List.range' 0 7).map (fun _ => 0)) :=
  ⟨by decide, C10_calc_crc_block_precondition.1 0 (fun _ => 0) 7 (by decide)⟩

/-- C3: in every bus-facing state (identification, scratchpad read,
scratchpad write, begin-conversion, collect-result), a failed presence
handshake forces the next state to the log/report state with the
no-presence outcome, remembering the requesting state; the following
cycle resumes at the identification state when the failure happened
there (pre-acquisition) and at begin-conversion from any of the other
four (steady-state) requesters. -/
theorem C3_no_presence_recovery (cfg : WIRE_MGR_config_t)
    (env env2 : WIRE_env) (e : WIRE_mgr_state)
    (hs : needs_reset e.state = true) (hr : env.reset_present = false) :
    (wire_mgr_main cfg env e).state = .LOG_CONVERSION_RESULT ∧
    (wire_mgr_main cfg env e).result = LOG_NO_PRESENCE_ERROR ∧
    (wire_mgr_main cfg env e).old_state = e.state ∧
    (wire_mgr_main cfg env2 (wire_mgr_main cfg env e)).state =
      (if e.state = .WIRE_READ_ROM then .WIRE_READ_ROM
       else .START_CONVERSION) := by
  cases h : e.state <;> simp [h, needs_reset] at hs <;>
    simp [wire_mgr_main, handle_reset_needed_state, hr, h,
      handle_log_conversion_results, LOG_NO_PRESENCE_ERROR, LOG_SUCCESS,
      LOG_CRC_ERROR, LOG_FAKE_SENSOR_ERROR]

/-- Witness for C3: a presence failure during begin-conversion logs the
no-presence outcome and the following cycle resumes at
begin-conversion. -/
theorem C3_no_presence_recovery_witness :
    needs_reset (eng_at .START_CONVERSION .LOG_CONVERSION_RESULT).state
        = true ∧
    env_fail.reset_present = false ∧
    ((wire_mgr_main cfg0 env_fail
        (eng_at .START_CONVERSION .LOG_CONVERSION_RESULT)).state
          = .LOG_CONVERSION_RESULT ∧
     (wire_mgr_main cfg0 env_fail
        (eng_at .START_CONVERSION .LOG_CONVERSION_RESULT)).result
          = LOG_NO_PRESENCE_ERROR ∧
     (wire_mgr_main cfg0 env_fail
        (eng_at .START_CONVERSION .LOG_CONVERSION_RESULT)).old_state
          = (eng_at .START_CONVERSION .LOG_CONVERSION_RESULT).state ∧
     (wire_mgr_main cfg0 env_ok0 (wire_mgr_main cfg0 env_fail
        (eng_at .START_CONVERSION .LOG_CONVERSION_RESULT))).state =
       (if (eng_at .START_CONVERSION .LOG_CONVERSION_RESULT).state
            = .WIRE_READ_ROM then .WIRE_READ_ROM
        else .START_CONVERSION)) :=
  ⟨by decide, by decide,
   C3_no_presence_recovery cfg0 env_fail env_ok0
     (eng_at .START_CONVERSION .LOG_CONVERSION_RESULT)
     (by decide) (by decide)⟩

theorem steady_step (cfg : WIRE_MGR_config_t) (env : WIRE_env)
    (e : WIRE_mgr_state) (h : steady e = true) :
    steady (wire_mgr_main cfg env e) = true := by
  unfold steady at h
  cases hs : e.state <;> rw [hs] at h
  case WIRE_READ_ROM => simp [in_conv_loop] at h
  case WIRE_READ_SCRATCHPAD => simp [in_conv_loop] at h
  case WIRE_WRITE_SCRATCHPAD => simp [in_conv_loop] at h
  case WIRE_ERROR_STATE => simp [in_conv_loop] at h
  case WIRE_SENTINEL_STATE => simp [in_conv_loop] at h
  case START_CONVERSION =>
    cases hrp : env.reset_present <;>
      simp [wire_mgr_main, hs, handle_reset_needed_state, hrp,
        handle_start_conversion, steady, in_conv_loop]
  case WAIT_FOR_CONVERTION =>
    by_cases hel : env.elapsed > e.conversion_time <;>
      simp [wire_mgr_main, hs, handle_wait_for_conversion, hel, steady,
        in_conv_loop]
  case READ_CONVERSION_RESULT =>
    cases hrp : env.reset_present
    · simp [wire_mgr_main, hs, handle_reset_needed_state, hrp, steady,
        in_conv_loop]
    · simp only [wire_mgr_main, hs, handle_reset_needed_state, hrp,
        handle_read_conversion_results, if_true]
      split <;> simp [steady, in_conv_loop]
  case LOG_CONVERSION_RESULT =>
    simp [in_conv_loop] at h
    cases ho : e.old_state <;>
      simp_all [wire_mgr_main, hs, handle_log_conversion_results, ho,
        steady, in_conv_loop]

theorem steady_not_acquire (e : WIRE_mgr_state) (h : steady e = true) :
    e.state ≠ .WIRE_READ_ROM ∧ e.state ≠ .WIRE_WRITE_SCRATCHPAD := by
  cases hs : e.state <;> simp_all [steady, in_conv_loop]

/-- C5: the steady-state invariant (being in the convert/collect loop,
or in the report state having entered it from a non-acquisition state)
is preserved by every step under every environment, and while it holds
the engine never visits the identification state or the
scratchpad-programming state again. -/
theorem C5_steady_loop_never_reacquires (cfg : WIRE_MGR_config_t)
    (envs : Nat → WIRE_env) (e : WIRE_mgr_state)
    (h : steady e = true) (n : Nat) :
    steady (run cfg envs e n) = true ∧
    (run cfg envs e n).state ≠ .WIRE_READ_ROM ∧
    (run cfg envs e n).state ≠ .WIRE_WRITE_SCRATCHPAD := by
  induction n with
  | zero => exact ⟨h, steady_not_acquire e h⟩
  | succ n ih =>
    have hst : steady (run cfg envs e (n + 1)) = true :=
      steady_step cfg (envs n) (run cfg envs e n) ih.1
    exact ⟨hst, steady_not_acquire _ hst⟩

/-- Witness for C5: five arbitrary cycles from the begin-conversion
state never reach identification or scratchpad programming. -/
theorem C5_steady_loop_never_reacquires_witness :
    steady (eng_at .START_CONVERSION .LOG_CONVERSION_RESULT) = true ∧
    (steady (run cfg0 (fun _ => env_ok0)
        (eng_at .START_CONVERSION .LOG_CONVERSION_RESULT) 5) = true ∧
      (run cfg0 (fun _ => env_ok0)
        (eng_at .START_CONVERSION .LOG_CONVERSION_RESULT) 5).state
          ≠ .WIRE_READ_ROM ∧
      (run cfg0 (fun _ => env_ok0)
        (eng_at .START_CONVERSION .LOG_CONVERSION_RESULT) 5).state
          ≠ .WIRE_WRITE_SCRATCHPAD) :=
  ⟨by decide,
   C5_steady_loop_never_reacquires cfg0 (fun _ => env_ok0)
     (eng_at .START_CONVERSION .LOG_CONVERSION_RESULT) (by decide) 5⟩

theorem ready_step_iff (cfg : WIRE_MGR_config_t) (env : WIRE_env)
    (e : WIRE_mgr_state) :
    (wire_mgr_main cfg env e).is_sensor_ready = true ↔
      ((e.is_sensor_ready = true ∧ e.state ≠ .WIRE_ERROR_STATE) ∨
        success_step cfg env e = true) := by
  cases hs : e.state
  case WIRE_READ_ROM =>
    cases hrp : env.reset_present <;>
      simp [wire_mgr_main, hs, handle_reset_needed_state, hrp,
        handle_read_rom, success_step] <;> split_ifs <;> simp
  case WIRE_READ_SCRATCHPAD =>
    cases hrp : env.reset_present <;>
      simp [wire_mgr_main, hs, handle_reset_needed_state, hrp,
        handle_read_scratchpad, success_step] <;> split_ifs <;> simp
  case WIRE_WRITE_SCRATCHPAD =>
    cases hrp : env.reset_present <;>
      simp [wire_mgr_main, hs, handle_reset_needed_state, hrp,
        handle_write_scratchpad, success_step]
  case START_CONVERSION =>
    cases hrp : env.reset_present <;>
      simp [wire_mgr_main, hs, handle_reset_needed_state, hrp,
        handle_start_conversion, success_step]
  case WAIT_FOR_CONVERTION =>
    by_cases hel : env.elapsed > e.conversion_time <;>
      simp [wire_mgr_main, hs, handle_wait_for_conversion, hel, success_step]
  case READ_CONVERSION_RESULT =>
    cases hrp : env.reset_present
    · simp [wire_mgr_main, hs, handle_reset_needed_state, hrp, success_step]
    · simp only [wire_mgr_main, hs, handle_reset_needed_state, hrp,
        handle_read_conversion_results, if_true]
      split
      · next hcond =>
        rw [Bool.and_eq_true, Bool.not_eq_true'] at hcond
        simp [success_step, collect_ok, hs, hrp,
          ← List.getD_eq_getElem?_getD, hcond.1, hcond.2]
      · next hcond =>
        simp [success_step, collect_ok, hs, hrp,
          ← List.getD_eq_getElem?_getD]
        right
        cases hb : cfg.is_crc
        · left; rfl
        · right
          cases hv : is_crc_valid
              (fun i => (read_bytes env.sp_bytes 9).getD i 0) 8
              ((read_bytes env.sp_bytes 9).getD 8 0)
          · rw [hb, hv] at hcond; simp at hcond
          · rfl
  case LOG_CONVERSION_RESULT =>
    cases ho : e.old_state <;>
      simp [wire_mgr_main, hs, handle_log_conversion_results, ho,
        success_step] <;> split_ifs <;> simp
  case WIRE_ERROR_STATE =>
    simp [wire_mgr_main, hs, handle_error_state, success_step]
  case WIRE_SENTINEL_STATE =>
    simp [wire_mgr_main, hs, success_step]

/-- C6: the readiness flag becomes true in exactly the steps that record
the success outcome (collect-result with presence and the CRC gate
passing); the error state forces it false and never exits on its own;
initialization starts it false; and from any ready-false state it stays
false through every run containing no success step. -/
theorem C6_readiness_flag (cfg : WIRE_MGR_config_t) :
    (∀ env e, (wire_mgr_main cfg env e).is_sensor_ready = true ↔
      ((e.is_sensor_ready = true ∧ e.state ≠ .WIRE_ERROR_STATE) ∨
        success_step cfg env e = true)) ∧
    (∀ env e, e.state = .WIRE_ERROR_STATE →
      (wire_mgr_main cfg env e).state = .WIRE_ERROR_STATE ∧
      (wire_mgr_main cfg env e).is_sensor_ready = false) ∧
    (∀ cfg2 e0, WIRE_MGR_initialize cfg2 = some e0 →
      e0.is_sensor_ready = false) ∧
    (∀ (envs : Nat → WIRE_env) (e0 : WIRE_mgr_state) (n : Nat),
      e0.is_sensor_ready = false →
      (∀ k, k < n → success_step cfg (envs k) (run cfg envs e0 k) = false) →
      (run cfg envs e0 n).is_sensor_ready = false) := by
  refine ⟨fun env e => ready_step_iff cfg env e, ?_, ?_, ?_⟩
  · intro env e h
    simp [wire_mgr_main, h, handle_error_state]
  · intro cfg2 e0 h
    unfold WIRE_MGR_initialize at h
    cases hopt : get_resolution_conv_time cfg2.resolution with
    | none => rw [hopt] at h; simp at h
    | some ct =>
      rw [hopt] at h
      simp at h
      rw [← h]
      rfl
  · intro envs e0 n h0 hns
    induction n with
    | zero => exact h0
    | succ n ih =>
      have hn : (run cfg envs e0 n).is_sensor_ready = false :=
        ih fun k hk => hns k (Nat.lt_succ_of_lt hk)
      cases hb : (run cfg envs e0 (n + 1)).is_sensor_ready
      · rfl
      · exfalso
        have hm := (ready_step_iff cfg (envs n) (run cfg envs e0 n)).mp hb
        rcases hm with ⟨h1, _⟩ | h2
        · rw [hn] at h1; exact Bool.false_ne_true h1
        · rw [hns n (Nat.lt_succ_self n)] at h2
          exact Bool.false_ne_true h2

/-- Witness for C6: a step in the error state stays there with the flag
cleared, and one presence-failing step from the initialized engine
leaves the flag false. -/
theorem C6_readiness_flag_witness :
    ((eng_at .WIRE_ERROR_STATE .WIRE_READ_ROM).state = .WIRE_ERROR_STATE ∧
     ((wire_mgr_main cfg0 env_ok0
        (eng_at .WIRE_ERROR_STATE .WIRE_READ_ROM)).state
          = .WIRE_ERROR_STATE ∧
      (wire_mgr_main cfg0 env_ok0
        (eng_at .WIRE_ERROR_STATE .WIRE_READ_ROM)).is_sensor_ready
          = false)) ∧
    (run cfg0 (fun _ => env_fail) (initial_engine 94) 1).is_sensor_ready
      = false :=
  ⟨⟨by decide, (C6_readiness_flag cfg0).2.1 env_ok0
      (eng_at .WIRE_ERROR_STATE .WIRE_READ_ROM) (by decide)⟩,
   (C6_readiness_flag cfg0).2.2.2 (fun _ => env_fail) (initial_engine 94) 1
     (by decide)
     (fun k hk => by
       have hz : k = 0 := by omega
       subst hz
       decide)⟩

/-- Counterexample to C1 as stated: a fake-sensor rejection raised in
the scratchpad-acquisition state (wrong reserved bytes, fakes
disallowed) is reachable from the initialized engine, yet the following
report step routes to begin-conversion, not to the error state. -/
theorem C1_counterexample_fake_from_scratchpad :
    WIRE_MGR_initialize cfg0 = some (initial_engine 94) ∧
    (run cfg0 (fun _ => env_genuine_rom_bad_sp) (initial_engine 94) 2).state
      = .LOG_CONVERSION_RESULT ∧
    (run cfg0 (fun _ => env_genuine_rom_bad_sp) (initial_engine 94) 2).result
      = LOG_FAKE_SENSOR_ERROR ∧
    (run cfg0 (fun _ => env_genuine_rom_bad_sp) (initial_engine 94) 2).old_state
      = .WIRE_READ_SCRATCHPAD ∧
    (run cfg0 (fun _ => env_genuine_rom_bad_sp) (initial_engine 94) 3).state
      = .START_CONVERSION ∧
    (run cfg0 (fun _ => env_genuine_rom_bad_sp) (initial_engine 94) 3).state
      ≠ .WIRE_ERROR_STATE := by
  refine ⟨by decide, by decide, by decide, by decide, by decide, by decide⟩

/-- C1 (amended): a report/log step whose recorded outcome is
fake-sensor-rejected escalates to the terminal error state exactly when
the previous state was the identification state or the sentinel; from
any other previous state (including scratchpad acquisition) it resumes
at begin-conversion. -/
theorem C1_fake_sensor_routing (cfg : WIRE_MGR_config_t) (env : WIRE_env)
    (e : WIRE_mgr_state)
    (hs : e.state = .LOG_CONVERSION_RESULT)
    (hr : e.result = LOG_FAKE_SENSOR_ERROR) :
    ((e.old_state = .WIRE_READ_ROM ∨ e.old_state = .WIRE_SENTINEL_STATE) →
      (wire_mgr_main cfg env e).state = .WIRE_ERROR_STATE) ∧
    ((e.old_state ≠ .WIRE_READ_ROM ∧ e.old_state ≠ .WIRE_SENTINEL_STATE) →
      (wire_mgr_main cfg env e).state = .START_CONVERSION) := by
  constructor
  · rintro (ho | ho) <;>
      simp [wire_mgr_main, hs, handle_log_conversion_results, ho, hr,
        LOG_FAKE_SENSOR_ERROR]
  · rintro ⟨h1, h2⟩
    cases ho : e.old_state <;>
      simp_all [wire_mgr_main, hs, handle_log_conversion_results,
        LOG_FAKE_SENSOR_ERROR]

/-- Witness for C1: fake-sensor outcome arrived from identification is
escalated to the error state. -/
theorem C1_fake_sensor_routing_witness :
    eng_fake_from_rom.state = .LOG_CONVERSION_RESULT ∧
    eng_fake_from_rom.result = LOG_FAKE_SENSOR_ERROR ∧
    (wire_mgr_main cfg0 env_ok0 eng_fake_from_rom).state
      = .WIRE_ERROR_STATE :=
  ⟨by decide, by decide,
   (C1_fake_sensor_routing cfg0 env_ok0 eng_fake_from_rom (by decide)
     (by decide)).1 (Or.inl (by decide))⟩

/-- Counterexample to C2 as stated: the second step from the
initialized engine is a scratchpad-acquisition step (not a
collect-result/success step: the readiness flag stays false), yet it
overwrites the published temperature from 0 to 0x0550. -/
theorem C2_counterexample_scratchpad_overwrite :
    (run cfg0 (fun _ => env_genuine_sp) (initial_engine 94) 1).state
      = .WIRE_READ_SCRATCHPAD ∧
    (run cfg0 (fun _ => env_genuine_sp) (initial_engine 94) 1).state
      ≠ .READ_CONVERSION_RESULT ∧
    success_step cfg0 env_genuine_sp
      (run cfg0 (fun _ => env_genuine_sp) (initial_engine 94) 1) = false ∧
    (run cfg0 (fun _ => env_genuine_sp) (initial_engine 94) 1).temperature
      = 0 ∧
    (run cfg0 (fun _ => env_genuine_sp) (initial_engine 94) 2).temperature
      = 1360 ∧
    (run cfg0 (fun _ => env_genuine_sp) (initial_engine 94) 2).is_sensor_ready
      = false := by
  refine ⟨by decide, by decide, by decide, by decide, by decide, by decide⟩

/-- C2 (amended): the published temperature is unchanged by every step
that is not a temperature-writing step (a successful collect-result
step, or a scratchpad-acquisition step whose CRC gate and
reserved-byte/fake-tolerance checks pass); a successful collect-result
step overwrites it with the composed scratchpad value, records the
success outcome and sets the readiness flag; a passing
scratchpad-acquisition step overwrites it with the composed value and
moves to scratchpad programming. -/
theorem C2_temperature_frame (cfg : WIRE_MGR_config_t) (env : WIRE_env)
    (e : WIRE_mgr_state) :
    (temp_write_step cfg env e = false →
      (wire_mgr_main cfg env e).temperature = e.temperature) ∧
    (e.state = .READ_CONVERSION_RESULT → env.reset_present = true →
      collect_ok cfg env = true →
      ((wire_mgr_main cfg env e).temperature =
        get_temperature ((read_bytes env.sp_bytes 9).getD 1 0)
          ((read_bytes env.sp_bytes 9).getD 0 0) ∧
       (wire_mgr_main cfg env e).result = LOG_SUCCESS ∧
       (wire_mgr_main cfg env e).is_sensor_ready = true)) ∧
    (e.state = .WIRE_READ_SCRATCHPAD → env.reset_present = true →
      scratch_pass cfg env = true →
      ((wire_mgr_main cfg env e).temperature =
        get_temperature ((read_bytes env.sp_bytes 9).getD 1 0)
          ((read_bytes env.sp_bytes 9).getD 0 0) ∧
       (wire_mgr_main cfg env e).state = .WIRE_WRITE_SCRATCHPAD)) := by
  refine ⟨?_, ?_, ?_⟩
  · intro hw
    cases hs : e.state
    case WIRE_READ_ROM =>
      cases hrp : env.reset_present
      · simp [wire_mgr_main, hs, handle_reset_needed_state, hrp]
      · simp only [wire_mgr_main, hs, handle_reset_needed_state, hrp,
          handle_read_rom, if_true]
        split_ifs <;> rfl
    case WIRE_READ_SCRATCHPAD =>
      cases hrp : env.reset_present
      · simp [wire_mgr_main, hs, handle_reset_needed_state, hrp]
      · simp only [wire_mgr_main, hs, handle_reset_needed_state, hrp,
          handle_read_scratchpad, if_true]
        split
        · next hcond => rfl
        · next hcond =>
          split
          · next hcond2 => rfl
          · next hcond2 =>
            exfalso
            have hcf := Bool.eq_false_iff.mpr hcond
            have hco : collect_ok cfg env = true := by
              simp only [collect_ok, hcf, Bool.not_false]
            have hrf : is_reserved_values_valid
                ((read_bytes env.sp_bytes 9).getD 5 0)
                ((read_bytes env.sp_bytes 9).getD 7 0) = true ∨
                cfg.is_fake_allowed = true := by
              rcases Bool.eq_false_or_eq_true (is_reserved_values_valid
                  ((read_bytes env.sp_bytes 9).getD 5 0)
                  ((read_bytes env.sp_bytes 9).getD 7 0)) with h | h
              · exact Or.inl h
              · rcases Bool.eq_false_or_eq_true cfg.is_fake_allowed
                  with h2 | h2
                · exact Or.inr h2
                · exact absurd ⟨h, h2⟩ hcond2
            have hspT : scratch_pass cfg env = true := by
              unfold scratch_pass
              rw [hco, Bool.true_and]
              rcases hrf with h | h
              · rw [h]
                rfl
              · rw [h]
                exact Bool.or_true _
            simp [temp_write_step, success_step, hs, hrp, hspT] at hw
    case WIRE_WRITE_SCRATCHPAD =>
      cases hrp : env.reset_present <;>
        simp [wire_mgr_main, hs, handle_reset_needed_state, hrp,
          handle_write_scratchpad]
    case START_CONVERSION =>
      cases hrp : env.reset_present <;>
        simp [wire_mgr_main, hs, handle_reset_needed_state, hrp,
          handle_start_conversion]
    case WAIT_FOR_CONVERTION =>
      by_cases hel : env.elapsed > e.conversion_time <;>
        simp [wire_mgr_main, hs, handle_wait_for_conversion, hel]
    case READ_CONVERSION_RESULT =>
      cases hrp : env.reset_present
      · simp [wire_mgr_main, hs, handle_reset_needed_state, hrp]
      · simp only [wire_mgr_main, hs, handle_reset_needed_state, hrp,
          handle_read_conversion_results, if_true]
        split
        · next hcond => rfl
        · next hcond =>
          exfalso
          have hcf := Bool.eq_false_iff.mpr hcond
          have hco : collect_ok cfg env = true := by
            simp only [collect_ok, hcf, Bool.not_false]
          simp [temp_write_step, success_step, hs, hrp, hco] at hw
    case LOG_CONVERSION_RESULT =>
      cases ho : e.old_state <;>
        simp only [wire_mgr_main, hs, handle_log_conversion_results, ho] <;>
        split_ifs <;> rfl
    case WIRE_ERROR_STATE =>
      simp [wire_mgr_main, hs, handle_error_state]
    case WIRE_SENTINEL_STATE =>
      simp [wire_mgr_main, hs]
  · intro hs hrp hok
    simp only [wire_mgr_main, hs, handle_reset_needed_state, hrp,
      handle_read_conversion_results, if_true]
    split
    · next hcond =>
      rw [collect_ok] at hok
      rw [hcond] at hok
      simp at hok
    · next hcond =>
      exact ⟨rfl, rfl, rfl⟩
  · intro hs hrp hsp
    simp only [wire_mgr_main, hs, handle_reset_needed_state, hrp,
      handle_read_scratchpad, if_true]
    split
    · next hcond =>
      exfalso
      have hco : collect_ok cfg env = false := by
        simp only [collect_ok, hcond, Bool.not_true]
      simp [scratch_pass, hco] at hsp
    · next hcond =>
      split
      · next hcond2 =>
        exfalso
        unfold scratch_pass at hsp
        rw [hcond2.1, hcond2.2] at hsp
        simp at hsp
      · next hcond2 =>
        exact ⟨rfl, rfl⟩

/-- Witness for C2: a concrete successful collect-result step and a
concrete passing scratchpad-acquisition step each overwrite the
temperature with the composed value. -/
theorem C2_temperature_frame_witness :
    ((eng_at .READ_CONVERSION_RESULT .WAIT_FOR_CONVERTION).state
        = .READ_CONVERSION_RESULT ∧
     env_genuine_sp.reset_present = true ∧
     collect_ok cfg0 env_genuine_sp = true ∧
     ((wire_mgr_main cfg0 env_genuine_sp
        (eng_at .READ_CONVERSION_RESULT .WAIT_FOR_CONVERTION)).temperature =
       get_temperature ((read_bytes env_genuine_sp.sp_bytes 9).getD 1 0)
         ((read_bytes env_genuine_sp.sp_bytes 9).getD 0 0) ∧
      (wire_mgr_main cfg0 env_genuine_sp
        (eng_at .READ_CONVERSION_RESULT .WAIT_FOR_CONVERTION)).result
          = LOG_SUCCESS ∧
      (wire_mgr_main cfg0 env_genuine_sp
        (eng_at .READ_CONVERSION_RESULT .WAIT_FOR_CONVERTION)).is_sensor_ready
          = true)) ∧
    ((eng_at .WIRE_READ_SCRATCHPAD .WIRE_READ_ROM).state
        = .WIRE_READ_SCRATCHPAD ∧
     scratch_pass cfg0 env_genuine_sp = true ∧
     ((wire_mgr_main cfg0 env_genuine_sp
        (eng_at .WIRE_READ_SCRATCHPAD .WIRE_READ_ROM)).temperature =
       get_temperature ((read_bytes env_genuine_sp.sp_bytes 9).getD 1 0)
         ((read_bytes env_genuine_sp.sp_bytes 9).getD 0 0) ∧
      (wire_mgr_main cfg0 env_genuine_sp
        (eng_at .WIRE_READ_SCRATCHPAD .WIRE_READ_ROM)).state
          = .WIRE_WRITE_SCRATCHPAD)) :=
  ⟨⟨by decide, by decide, by decide,
    (C2_temperature_frame cfg0 env_genuine_sp
       (eng_at .READ_CONVERSION_RESULT .WAIT_FOR_CONVERTION)).2.1
      (by decide) (by decide) (by decide)⟩,
   by decide, by decide,
   (C2_temperature_frame cfg0 env_genuine_sp
      (eng_at .WIRE_READ_SCRATCHPAD .WIRE_READ_ROM)).2.2
     (by decide) (by decide) (by decide)⟩

/-- Counterexample to C9 as stated: with the 8-bit success counter at
255, the report step wraps it to 0, a strict decrease. -/
theorem C9_counterexample_wraparound :
    eng_log_sat.state = .LOG_CONVERSION_RESULT ∧
    eng_log_sat.result = LOG_SUCCESS ∧
    eng_log_sat.log_success = 255 ∧
    (wire_mgr_main cfg0 env_ok0 eng_log_sat).log_success = 0 ∧
    (wire_mgr_main cfg0 env_ok0 eng_log_sat).log_success
      < eng_log_sat.log_success := by
  refine ⟨by decide, by decide, by decide, by decide, by decide⟩

theorem log_step_increments (cfg : WIRE_MGR_config_t) (env : WIRE_env)
    (e : WIRE_mgr_state) :
    e.state = .LOG_CONVERSION_RESULT →
      (e.result = LOG_SUCCESS →
        (wire_mgr_main cfg env e).log_success
          = (e.log_success + 1) % 256) ∧
      (e.result = LOG_CRC_ERROR →
        (wire_mgr_main cfg env e).log_crc_error
          = (e.log_crc_error + 1) % 256) ∧
      (e.result = LOG_NO_PRESENCE_ERROR →
        (wire_mgr_main cfg env e).log_no_presence
          = (e.log_no_presence + 1) % 256) ∧
      (e.result = LOG_FAKE_SENSOR_ERROR →
        (wire_mgr_main cfg env e).log_fake_sensor
          = (e.log_fake_sensor + 1) % 256) := by
  intro hs'
  refine ⟨fun hr => ?_, fun hr => ?_, fun hr => ?_, fun hr => ?_⟩ <;>
    simp [wire_mgr_main, hs', handle_log_conversion_results, hr,
      LOG_SUCCESS, LOG_CRC_ERROR, LOG_NO_PRESENCE_ERROR,
      LOG_FAKE_SENSOR_ERROR]

/-- C9 (amended): in every step each of the four outcome counters is
either unchanged, or - exactly in a report/log step whose recorded
outcome matches - incremented by one modulo 256 (the counters are
`uint8_t`, so a counter at 255 wraps to 0); no step resets or otherwise
modifies them. -/
theorem C9_counters_step (cfg : WIRE_MGR_config_t) (env : WIRE_env)
    (e : WIRE_mgr_state) :
    (((wire_mgr_main cfg env e).log_success = e.log_success ∨
      (e.state = .LOG_CONVERSION_RESULT ∧ e.result = LOG_SUCCESS ∧
        (wire_mgr_main cfg env e).log_success
          = (e.log_success + 1) % 256)) ∧
    ((wire_mgr_main cfg env e).log_crc_error = e.log_crc_error ∨
      (e.state = .LOG_CONVERSION_RESULT ∧ e.result = LOG_CRC_ERROR ∧
        (wire_mgr_main cfg env e).log_crc_error
          = (e.log_crc_error + 1) % 256)) ∧
    ((wire_mgr_main cfg env e).log_no_presence = e.log_no_presence ∨
      (e.state = .LOG_CONVERSION_RESULT ∧ e.result = LOG_NO_PRESENCE_ERROR ∧
        (wire_mgr_main cfg env e).log_no_presence
          = (e.log_no_presence + 1) % 256)) ∧
    ((wire_mgr_main cfg env e).log_fake_sensor = e.log_fake_sensor ∨
      (e.state = .LOG_CONVERSION_RESULT ∧ e.result = LOG_FAKE_SENSOR_ERROR ∧
        (wire_mgr_main cfg env e).log_fake_sensor
          = (e.log_fake_sensor + 1) % 256))) ∧
    (e.state = .LOG_CONVERSION_RESULT →
      (e.result = LOG_SUCCESS →
        (wire_mgr_main cfg env e).log_success
          = (e.log_success + 1) % 256) ∧
      (e.result = LOG_CRC_ERROR →
        (wire_mgr_main cfg env e).log_crc_error
          = (e.log_crc_error + 1) % 256) ∧
      (e.result = LOG_NO_PRESENCE_ERROR →
        (wire_mgr_main cfg env e).log_no_presence
          = (e.log_no_presence + 1) % 256) ∧
      (e.result = LOG_FAKE_SENSOR_ERROR →
        (wire_mgr_main cfg env e).log_fake_sensor
          = (e.log_fake_sensor + 1) % 256)) := by
  refine ⟨?_, log_step_increments cfg env e⟩
  cases hs : e.state
  case LOG_CONVERSION_RESULT =>
    by_cases h0 : e.result = LOG_SUCCESS
    · refine ⟨Or.inr ⟨rfl, h0, ?_⟩, Or.inl ?_, Or.inl ?_, Or.inl ?_⟩ <;>
        simp [wire_mgr_main, hs, handle_log_conversion_results, h0,
          LOG_SUCCESS, LOG_CRC_ERROR, LOG_NO_PRESENCE_ERROR,
          LOG_FAKE_SENSOR_ERROR]
    · by_cases h1 : e.result = LOG_CRC_ERROR
      · refine ⟨Or.inl ?_, Or.inr ⟨rfl, h1, ?_⟩, Or.inl ?_, Or.inl ?_⟩ <;>
          simp [wire_mgr_main, hs, handle_log_conversion_results, h0, h1,
            LOG_SUCCESS, LOG_CRC_ERROR, LOG_NO_PRESENCE_ERROR,
            LOG_FAKE_SENSOR_ERROR]
      · by_cases h2 : e.result = LOG_NO_PRESENCE_ERROR
        · refine ⟨Or.inl ?_, Or.inl ?_, Or.inr ⟨rfl, h2, ?_⟩, Or.inl ?_⟩ <;>
            simp [wire_mgr_main, hs, handle_log_conversion_results, h0, h1,
              h2, LOG_SUCCESS, LOG_CRC_ERROR, LOG_NO_PRESENCE_ERROR,
              LOG_FAKE_SENSOR_ERROR]
        · by_cases h3 : e.result = LOG_FAKE_SENSOR_ERROR
          · refine ⟨Or.inl ?_, Or.inl ?_, Or.inl ?_, Or.inr ⟨rfl, h3, ?_⟩⟩ <;>
              simp [wire_mgr_main, hs, handle_log_conversion_results,
                h0, h1, h2, h3, LOG_SUCCESS, LOG_CRC_ERROR,
                LOG_NO_PRESENCE_ERROR, LOG_FAKE_SENSOR_ERROR]
          · refine ⟨Or.inl ?_, Or.inl ?_, Or.inl ?_, Or.inl ?_⟩ <;>
              (simp only [wire_mgr_main, hs, handle_log_conversion_results]
               split_ifs <;> rfl)
  case WIRE_READ_ROM =>
    refine ⟨Or.inl ?_, Or.inl ?_, Or.inl ?_, Or.inl ?_⟩ <;>
      (cases hrp : env.reset_present
       · simp [wire_mgr_main, hs, handle_reset_needed_state, hrp]
       · simp only [wire_mgr_main, hs, handle_reset_needed_state, hrp,
           handle_read_rom, if_true]
         split_ifs <;> rfl)
  case WIRE_READ_SCRATCHPAD =>
    refine ⟨Or.inl ?_, Or.inl ?_, Or.inl ?_, Or.inl ?_⟩ <;>
      (cases hrp : env.reset_present
       · simp [wire_mgr_main, hs, handle_reset_needed_state, hrp]
       · simp only [wire_mgr_main, hs, handle_reset_needed_state, hrp,
           handle_read_scratchpad, if_true]
         split_ifs <;> rfl)
  case WIRE_WRITE_SCRATCHPAD =>
    refine ⟨Or.inl ?_, Or.inl ?_, Or.inl ?_, Or.inl ?_⟩ <;>
      (cases hrp : env.reset_present <;>
        simp [wire_mgr_main, hs, handle_reset_needed_state, hrp,
          handle_write_scratchpad])
  case START_CONVERSION =>
    refine ⟨Or.inl ?_, Or.inl ?_, Or.inl ?_, Or.inl ?_⟩ <;>
      (cases hrp : env.reset_present <;>
        simp [wire_mgr_main, hs, handle_reset_needed_state, hrp,
          handle_start_conversion])
  case WAIT_FOR_CONVERTION =>
    refine ⟨Or.inl ?_, Or.inl ?_, Or.inl ?_, Or.inl ?_⟩ <;>
      (by_cases hel : env.elapsed > e.conversion_time <;>
        simp [wire_mgr_main, hs, handle_wait_for_conversion, hel])
  case READ_CONVERSION_RESULT =>
    refine ⟨Or.inl ?_, Or.inl ?_, Or.inl ?_, Or.inl ?_⟩ <;>
      (cases hrp : env.reset_present
       · simp [wire_mgr_main, hs, handle_reset_needed_state, hrp]
       · simp only [wire_mgr_main, hs, handle_reset_needed_state, hrp,
           handle_read_conversion_results, if_true]
         split_ifs <;> rfl)
  case WIRE_ERROR_STATE =>
    refine ⟨Or.inl ?_, Or.inl ?_, Or.inl ?_, Or.inl ?_⟩ <;>
      simp [wire_mgr_main, hs, handle_error_state]
  case WIRE_SENTINEL_STATE =>
    refine ⟨Or.inl ?_, Or.inl ?_, Or.inl ?_, Or.inl ?_⟩ <;>
      simp [wire_mgr_main, hs]

/-- Witness for C9: a report step with the success outcome and a
saturated counter increments it modulo 256 (255 wraps to 0). -/
theorem C9_counters_step_witness :
    eng_log_sat.state = .LOG_CONVERSION_RESULT ∧
    eng_log_sat.result = LOG_SUCCESS ∧
    (wire_mgr_main cfg0 env_ok0 eng_log_sat).log_success
      = (eng_log_sat.log_success + 1) % 256 :=
  ⟨by decide, by decide,
   ((C9_counters_step cfg0 env_ok0 eng_log_sat).2 (by decide)).1
     (by decide)⟩

def env_zero_elapsed (ct : Nat) : WIRE_env :=
  { reset_present := true, rom_bytes := fun _ => 0, sp_bytes := fun _ => 0,
    tick := 0, elapsed := ct + 1 }

theorem step_write_eq (cfg : WIRE_MGR_config_t) (env : WIRE_env)
    (e : WIRE_mgr_state) (h : e.state = .WIRE_WRITE_SCRATCHPAD)
    (hrp : env.reset_present = true) :
    wire_mgr_main cfg env e =
      { e with old_state := e.state, state := .START_CONVERSION } := by
  simp [wire_mgr_main, h, handle_reset_needed_state, hrp,
    handle_write_scratchpad]

theorem step_start_eq (cfg : WIRE_MGR_config_t) (env : WIRE_env)
    (e : WIRE_mgr_state) (h : e.state = .START_CONVERSION)
    (hrp : env.reset_present = true) :
    wire_mgr_main cfg env e =
      { e with
          old_state := e.state
          state := WIRE_state_t.WAIT_FOR_CONVERTION
          start_conv_time := env.tick % 4294967296 } := by
  simp [wire_mgr_main, h, handle_reset_needed_state, hrp,
    handle_start_conversion]

theorem step_wait_done_eq (cfg : WIRE_MGR_config_t) (env : WIRE_env)
    (e : WIRE_mgr_state) (h : e.state = .WAIT_FOR_CONVERTION)
    (hel : env.elapsed > e.conversion_time) :
    wire_mgr_main cfg env e =
      { e with old_state := e.state, state := .READ_CONVERSION_RESULT } := by
  simp [wire_mgr_main, h, handle_wait_for_conversion, hel]

theorem collect_step_success (cfg : WIRE_MGR_config_t) (env : WIRE_env)
    (e : WIRE_mgr_state) (hs : e.state = .READ_CONVERSION_RESULT)
    (hrp : env.reset_present = true) (hok : collect_ok cfg env = true) :
    (wire_mgr_main cfg env e).result = LOG_SUCCESS ∧
    (wire_mgr_main cfg env e).is_sensor_ready = true ∧
    (wire_mgr_main cfg env e).state = .LOG_CONVERSION_RESULT ∧
    (wire_mgr_main cfg env e).old_state = .READ_CONVERSION_RESULT := by
  simp only [wire_mgr_main, hs, handle_reset_needed_state, hrp,
    handle_read_conversion_results, if_true]
  split
  · next hcond =>
    rw [collect_ok] at hok
    rw [hcond] at hok
    simp at hok
  · next hcond =>
    exact ⟨rfl, rfl, rfl, trivial⟩

theorem step_log_from_loop (cfg : WIRE_MGR_config_t) (env : WIRE_env)
    (e : WIRE_mgr_state) (h : e.state = .LOG_CONVERSION_RESULT)
    (ho1 : e.old_state ≠ .WIRE_READ_ROM)
    (ho2 : e.old_state ≠ .WIRE_SENTINEL_STATE) :
    (wire_mgr_main cfg env e).state = .START_CONVERSION := by
  cases ho : e.old_state <;>
    simp_all [wire_mgr_main, handle_log_conversion_results]

theorem crc_gate_all_zero (b : Bool) :
    (b && !(is_crc_valid (fun i => (read_bytes (fun _ => 0) 9).getD i 0) 8
      ((read_bytes (fun _ => 0) 9).getD 8 0))) = false := by
  revert b
  decide

theorem collect_ok_env_zero (cfg : WIRE_MGR_config_t) (ct : Nat) :
    collect_ok cfg (env_zero_elapsed ct) = true := by
  unfold collect_ok env_zero_elapsed
  dsimp only
  rw [crc_gate_all_zero]
  rfl

theorem cycle_success_from_write (cfg : WIRE_MGR_config_t)
    (e1 : WIRE_mgr_state) (h : e1.state = .WIRE_WRITE_SCRATCHPAD) :
    ∃ envs : Nat → WIRE_env,
      (run cfg envs e1 4).result = LOG_SUCCESS ∧
      (run cfg envs e1 4).is_sensor_ready = true ∧
      (run cfg envs e1 4).state = .LOG_CONVERSION_RESULT ∧
      (run cfg envs e1 5).state = .START_CONVERSION := by
  refine ⟨fun _ => env_zero_elapsed e1.conversion_time, ?_⟩
  have r1 : run cfg (fun _ => env_zero_elapsed e1.conversion_time) e1 1 =
      { e1 with old_state := e1.state, state := .START_CONVERSION } :=
    step_write_eq cfg _ e1 h rfl
  have r2 : run cfg (fun _ => env_zero_elapsed e1.conversion_time) e1 2 =
      { e1 with
          old_state := WIRE_state_t.START_CONVERSION
          state := WIRE_state_t.WAIT_FOR_CONVERTION
          start_conv_time := 0 } := by
    show wire_mgr_main cfg (env_zero_elapsed e1.conversion_time)
      (run cfg (fun _ => env_zero_elapsed e1.conversion_time) e1 1) = _
    rw [r1]
    rw [step_start_eq cfg _ _ rfl rfl]
    rfl
  have r3 : run cfg (fun _ => env_zero_elapsed e1.conversion_time) e1 3 =
      { e1 with
          old_state := WIRE_state_t.WAIT_FOR_CONVERTION
          state := WIRE_state_t.READ_CONVERSION_RESULT
          start_conv_time := 0 } := by
    show wire_mgr_main cfg (env_zero_elapsed e1.conversion_time)
      (run cfg (fun _ => env_zero_elapsed e1.conversion_time) e1 2) = _
    rw [r2]
    rw [step_wait_done_eq cfg _ _ rfl (Nat.lt_succ_self _)]
  have r4 := collect_step_success cfg (env_zero_elapsed e1.conversion_time)
    ({ e1 with
        old_state := WIRE_state_t.WAIT_FOR_CONVERTION
        state := WIRE_state_t.READ_CONVERSION_RESULT
        start_conv_time := 0 }) rfl rfl
    (collect_ok_env_zero cfg e1.conversion_time)
  have hr4 : run cfg (fun _ => env_zero_elapsed e1.conversion_time) e1 4 =
      wire_mgr_main cfg (env_zero_elapsed e1.conversion_time)
        ({ e1 with
            old_state := WIRE_state_t.WAIT_FOR_CONVERTION
            state := WIRE_state_t.READ_CONVERSION_RESULT
            start_conv_time := 0 }) := by
    show wire_mgr_main cfg (env_zero_elapsed e1.conversion_time)
      (run cfg (fun _ => env_zero_elapsed e1.conversion_time) e1 3) = _
    rw [r3]
  refine ⟨by rw [hr4]; exact r4.1, by rw [hr4]; exact r4.2.1,
    by rw [hr4]; exact r4.2.2.1, ?_⟩
  show (wire_mgr_main cfg (env_zero_elapsed e1.conversion_time)
    (run cfg (fun _ => env_zero_elapsed e1.conversion_time) e1 4)).state
      = .START_CONVERSION
  apply step_log_from_loop
  · rw [hr4]; exact r4.2.2.1
  · rw [hr4, r4.2.2.2]; decide
  · rw [hr4, r4.2.2.2]; decide

/-- C4: in the scratchpad-acquisition step, with presence detected and
the CRC gate passing but the reserved bytes differing from the
manufacturer constants: when fakes are disallowed the step records the
fake-sensor outcome and routes to the report state; when fakes are
allowed the step proceeds to scratchpad programming, from which a cycle
ending in the success outcome exists. -/
theorem C4_fake_sensor_gating (cfg : WIRE_MGR_config_t) (env : WIRE_env)
    (e : WIRE_mgr_state)
    (hs : e.state = .WIRE_READ_SCRATCHPAD)
    (hrp : env.reset_present = true)
    (hcrc : collect_ok cfg env = true)
    (hres : is_reserved_values_valid ((read_bytes env.sp_bytes 9).getD 5 0)
      ((read_bytes env.sp_bytes 9).getD 7 0) = false) :
    (cfg.is_fake_allowed = false →
      (wire_mgr_main cfg env e).result = LOG_FAKE_SENSOR_ERROR ∧
      (wire_mgr_main cfg env e).state = .LOG_CONVERSION_RESULT) ∧
    (cfg.is_fake_allowed = true →
      (wire_mgr_main cfg env e).state = .WIRE_WRITE_SCRATCHPAD ∧
      ∃ envs : Nat → WIRE_env,
        (run cfg envs (wire_mgr_main cfg env e) 4).result = LOG_SUCCESS ∧
        (run cfg envs (wire_mgr_main cfg env e) 4).is_sensor_ready = true ∧
        (run cfg envs (wire_mgr_main cfg env e) 4).state
          = .LOG_CONVERSION_RESULT ∧
        (run cfg envs (wire_mgr_main cfg env e) 5).state
          = .START_CONVERSION) := by
  constructor
  · intro hf
    simp only [wire_mgr_main, hs, handle_reset_needed_state, hrp,
      handle_read_scratchpad, if_true]
    split
    · next hcond =>
      rw [collect_ok] at hcrc
      rw [hcond] at hcrc
      simp at hcrc
    · next hcond =>
      split
      · next hcond2 => exact ⟨rfl, rfl⟩
      · next hcond2 => exact absurd ⟨hres, hf⟩ hcond2
  · intro hf
    have hstep : (wire_mgr_main cfg env e).state = .WIRE_WRITE_SCRATCHPAD := by
      simp only [wire_mgr_main, hs, handle_reset_needed_state, hrp,
        handle_read_scratchpad, if_true]
      split
      · next hcond =>
        rw [collect_ok] at hcrc
        rw [hcond] at hcrc
        simp at hcrc
      · next hcond =>
        split
        · next hcond2 =>
          rw [hf] at hcond2
          exact absurd hcond2.2 (by simp)
        · next hcond2 => rfl
    exact ⟨hstep, cycle_success_from_write cfg _ hstep⟩

/-- Witness for C4: CRC disabled, fakes allowed, all-zero scratchpad
(wrong reserved bytes): the step proceeds to scratchpad programming and
a success-ending continuation exists. -/
theorem C4_fake_sensor_gating_witness :
    (eng_at .WIRE_READ_SCRATCHPAD .WIRE_READ_ROM).state
      = .WIRE_READ_SCRATCHPAD ∧
    env_genuine_rom_bad_sp.reset_present = true ∧
    collect_ok cfg_fake_ok env_genuine_rom_bad_sp = true ∧
    is_reserved_values_valid
      ((read_bytes env_genuine_rom_bad_sp.sp_bytes 9).getD 5 0)
      ((read_bytes env_genuine_rom_bad_sp.sp_bytes 9).getD 7 0) = false ∧
    ((wire_mgr_main cfg_fake_ok env_genuine_rom_bad_sp
        (eng_at .WIRE_READ_SCRATCHPAD .WIRE_READ_ROM)).state
          = .WIRE_WRITE_SCRATCHPAD ∧
      ∃ envs : Nat → WIRE_env,
        (run cfg_fake_ok envs (wire_mgr_main cfg_fake_ok
          env_genuine_rom_bad_sp
          (eng_at .WIRE_READ_SCRATCHPAD .WIRE_READ_ROM)) 4).result
            = LOG_SUCCESS ∧
        (run cfg_fake_ok envs (wire_mgr_main cfg_fake_ok
          env_genuine_rom_bad_sp
          (eng_at .WIRE_READ_SCRATCHPAD .WIRE_READ_ROM)) 4).is_sensor_ready
            = true ∧
        (run cfg_fake_ok envs (wire_mgr_main cfg_fake_ok
          env_genuine_rom_bad_sp
          (eng_at .WIRE_READ_SCRATCHPAD .WIRE_READ_ROM)) 4).state
            = .LOG_CONVERSION_RESULT ∧
        (run cfg_fake_ok envs (wire_mgr_main cfg_fake_ok
          env_genuine_rom_bad_sp
          (eng_at .WIRE_READ_SCRATCHPAD .WIRE_READ_ROM)) 5).state
            = .START_CONVERSION) :=
  ⟨by decide, by decide, by decide, by decide,
   (C4_fake_sensor_gating cfg_fake_ok env_genuine_rom_bad_sp
      (eng_at .WIRE_READ_SCRATCHPAD .WIRE_READ_ROM) (by decide) (by decide)
      (by decide) (by decide)).2 rfl⟩

end WireMgr
